import Mathlib

/-!
Verification of the build-orchestration script in src/build.rs.

The script (a Cargo build script, fn main) does, in order:
  1. if the file "mypkg/configure" does not exist, run the external command
     "autoreconf" with arguments ["-i", "mypkg"] via
     Command::new("autoreconf").args(&["-i", "mypkg"]).status().unwrap();
     note that status() returns Ok(ExitStatus) whenever the process could be
     launched, whatever its exit code, and Err only when the launch itself
     fails, so the unwrap panics exactly on a launch failure and the exit
     code of autoreconf is discarded;
  2. let dst = autotools::build("mypkg"), which runs the configure/make/
     make-install sequence and returns the installation directory, panicking
     (and thus aborting the build script with a non-zero process exit) when
     that sequence fails;
  3. println two cargo link directives built from dst.

We embed the script as a function of the external-world outcomes: whether
the marker file exists, what the autoreconf invocation does, whether that
invocation generated the configure script, and what the native build does.
The function yields the ordered trace of observable events, the final
result of the process (normal exit 0 versus panic, which Cargo turns into
a non-zero exit), and the marker state afterwards.
-/

namespace BuildRs

/-- Fixed source-directory path passed to autoreconf and autotools::build
(the string literal "mypkg" in src/build.rs). -/
def sourceDir : String := "mypkg"

/-- Path tested for existence at the top of main (the string literal
"mypkg/configure" in src/build.rs). -/
def markerPath : String := "mypkg/configure"

/-- Program name of the configuration-generation command. -/
def autoreconfProg : String := "autoreconf"

/-- Argument list passed to the autoreconf command. -/
def autoreconfArgs : List String := ["-i", sourceDir]

/-- Line printed by the first println: the format string
"cargo:rustc-link-search=native=" followed by the build output path with
"/lib" appended. -/
def searchLine (dst : String) : String :=
  "cargo:rustc-link-search=native=" ++ dst ++ "/lib"

/-- Line printed by the second println (a constant string). -/
def linkLibLine : String := "cargo:rustc-link-lib=static=mypkg"

/-- Outcome of attempting to run an external command with
Command::status: either the process could not be launched at all
(status() returns Err), or it ran and exited with the given code. -/
inductive ProcOutcome where
  | launchFailed : ProcOutcome
  | exited : Nat → ProcOutcome
deriving DecidableEq, Repr

/-- Outcome of autotools::build: the install directory on success, or a
failure of the configure/make/make-install sequence. -/
inductive BuildOutcome where
  | ok : String → BuildOutcome
  | failed : BuildOutcome
deriving DecidableEq, Repr

/-- Observable events of one run of the script, in program order. -/
inductive Event where
  | checkMarker : String → Bool → Event
  | spawn : String → List String → Event
  | invokeBuild : String → Event
  | emitLine : String → Event
deriving DecidableEq, Repr

/-- Result of the build-script process: a normal return from main, which
is process exit code 0, or a Rust panic, which Cargo reports as a failed
build script with a non-zero exit code. -/
inductive RunResult where
  | exitOk : RunResult
  | panicked : RunResult
deriving DecidableEq, Repr

/-- Everything observable about one run: the ordered event trace, the
process result, and whether the marker file exists afterwards. -/
structure RunOut where
  trace : List Event
  result : RunResult
  markerAfter : Bool
deriving DecidableEq, Repr

/-- Second half of main, from the autotools::build call on: on build
failure the autotools crate panics before anything is printed; on success
dst is returned and the two println lines are emitted in order. -/
def buildPhase (pre : List Event) (marker : Bool) (b : BuildOutcome) : RunOut :=
  match b with
  | BuildOutcome.failed =>
      ⟨pre ++ [Event.invokeBuild sourceDir], RunResult.panicked, marker⟩
  | BuildOutcome.ok dst =>
      ⟨pre ++ [Event.invokeBuild sourceDir,
               Event.emitLine (searchLine dst),
               Event.emitLine linkLibLine],
       RunResult.exitOk, marker⟩

/-- Embedding of fn main in src/build.rs. Parameters describe the
environment: markerExists is whether "mypkg/configure" exists when main
starts; reconf is what the autoreconf process does if it is invoked;
gen is whether that invocation left the configure script in place;
b is what autotools::build does if it is reached. The
unwrap on status() panics exactly when reconf is launchFailed; an exit
code, zero or not, is discarded and execution continues to the build. -/
def runMain (markerExists : Bool) (reconf : ProcOutcome) (gen : Bool)
    (b : BuildOutcome) : RunOut :=
  let check := Event.checkMarker markerPath markerExists
  if markerExists then
    buildPhase [check] true b
  else
    let sp := Event.spawn autoreconfProg autoreconfArgs
    match reconf with
    | ProcOutcome.launchFailed =>
        ⟨[check, sp], RunResult.panicked, false⟩
    | ProcOutcome.exited _ =>
        buildPhase [check, sp] gen b

/-- Number of configuration-generation invocations in a trace. -/
def countAutoreconf (tr : List Event) : Nat :=
  tr.countP (fun e =>
    match e with
    | Event.spawn _ _ => true
    | _ => false)

/-- Whether a trace contains any emitted cargo directive line. -/
def hasEmit (tr : List Event) : Bool :=
  tr.any (fun e =>
    match e with
    | Event.emitLine _ => true
    | _ => false)

/-- Success condition as the specification words it for claim C8: the
configuration-generation sub-step, when needed, succeeded (exit code 0)
and the build sub-step succeeded. Written from the spec, to be compared
with the condition the code actually implements. -/
def specSubStepsSucceed (markerExists : Bool) (reconf : ProcOutcome)
    (b : BuildOutcome) : Prop :=
  (markerExists = true ∨ reconf = ProcOutcome.exited 0) ∧ ∃ d, b = BuildOutcome.ok d

lemma runMain_true (r : ProcOutcome) (g : Bool) (b : BuildOutcome) :
    runMain true r g b =
      buildPhase [Event.checkMarker markerPath true] true b := rfl

lemma runMain_false_exited (k : Nat) (g : Bool) (b : BuildOutcome) :
    runMain false (ProcOutcome.exited k) g b =
      buildPhase [Event.checkMarker markerPath false,
                  Event.spawn autoreconfProg autoreconfArgs] g b := rfl

lemma runMain_false_launchFailed (g : Bool) (b : BuildOutcome) :
    runMain false ProcOutcome.launchFailed g b =
      ⟨[Event.checkMarker markerPath false,
        Event.spawn autoreconfProg autoreconfArgs],
       RunResult.panicked, false⟩ := rfl

/-- The claim of C1 fails on the code: with the marker absent, autoreconf
launched but exiting with code 1, and a build that then succeeds with
output directory /tmp/out, the script does not abort: it reaches the build
step, emits directives, and finishes with exit code 0, because the unwrap
on status() only inspects launchability, not the exit code. -/
theorem autoreconf_nonzero_exit_not_fatal_cex :
    (runMain false (ProcOutcome.exited 1) false (BuildOutcome.ok "/tmp/out")).result
        = RunResult.exitOk ∧
    Event.invokeBuild sourceDir ∈
      (runMain false (ProcOutcome.exited 1) false (BuildOutcome.ok "/tmp/out")).trace ∧
    hasEmit (runMain false (ProcOutcome.exited 1) false (BuildOutcome.ok "/tmp/out")).trace
        = true := by
  refine ⟨rfl, ?_, rfl⟩
  simp [runMain_false_exited, buildPhase]

/-- C1 (amended): when autoreconf is launched and exits — with any exit
code, zero or not — the script ignores the exit status and proceeds to the
build step exactly as it would with the marker present; the overall result
is then determined by the build alone. -/
theorem autoreconf_exit_status_ignored (k : Nat) (g : Bool) (b : BuildOutcome) :
    Event.invokeBuild sourceDir ∈
      (runMain false (ProcOutcome.exited k) g b).trace ∧
    (runMain false (ProcOutcome.exited k) g b).result
      = (runMain true (ProcOutcome.exited k) g b).result := by
  cases b <;> simp [runMain_true, runMain_false_exited, buildPhase]

/-- C2: when the autoreconf process cannot be launched at all, the unwrap
panics: the run aborts with a non-zero exit, the build step is never
reached, and no directive is emitted. -/
theorem autoreconf_launch_failure_fatal (g : Bool) (b : BuildOutcome) :
    (runMain false ProcOutcome.launchFailed g b).result = RunResult.panicked ∧
    Event.invokeBuild sourceDir ∉
      (runMain false ProcOutcome.launchFailed g b).trace ∧
    hasEmit (runMain false ProcOutcome.launchFailed g b).trace = false := by
  refine ⟨rfl, ?_, rfl⟩
  simp [runMain_false_launchFailed]

/-- C3: whenever the marker file exists, the run invokes autoreconf zero
times, leaves the marker in place, and therefore a second run against the
resulting state again invokes autoreconf zero times. -/
theorem marker_present_skips_autoreconf_twice
    (r₁ : ProcOutcome) (g₁ : Bool) (b₁ : BuildOutcome)
    (r₂ : ProcOutcome) (g₂ : Bool) (b₂ : BuildOutcome) :
    countAutoreconf (runMain true r₁ g₁ b₁).trace = 0 ∧
    (runMain true r₁ g₁ b₁).markerAfter = true ∧
    countAutoreconf
      (runMain (runMain true r₁ g₁ b₁).markerAfter r₂ g₂ b₂).trace = 0 := by
  cases b₁ <;> cases b₂ <;>
    simp [runMain_true, buildPhase, countAutoreconf]

/-- C4: whenever the marker file is absent, the run invokes autoreconf
exactly once, as the second event of the trace, right after the marker
check and before anything else — in particular before any build step. -/
theorem marker_absent_invokes_autoreconf_once_before_build
    (r : ProcOutcome) (g : Bool) (b : BuildOutcome) :
    countAutoreconf (runMain false r g b).trace = 1 ∧
    ∃ rest, (runMain false r g b).trace =
        Event.checkMarker markerPath false ::
        Event.spawn autoreconfProg autoreconfArgs :: rest ∧
      countAutoreconf rest = 0 := by
  cases r with
  | launchFailed =>
      exact ⟨rfl, [], rfl, rfl⟩
  | exited k =>
      cases b with
      | ok d =>
          refine ⟨rfl, [Event.invokeBuild sourceDir,
                        Event.emitLine (searchLine d),
                        Event.emitLine linkLibLine], rfl, rfl⟩
      | failed =>
          exact ⟨rfl, [Event.invokeBuild sourceDir], rfl, rfl⟩

lemma string_append_assoc (a b c : String) : a ++ b ++ c = a ++ (b ++ c) := by
  apply String.ext
  simp [String.data_append, List.append_assoc]

/-- C5: on any run whose build step returns an output directory dst and
which finishes with exit code 0, both directives are emitted; the emitted
search-path line carries exactly the path dst with "/lib" appended, and
the emitted link line carries exactly the fixed identifier mypkg. -/
theorem link_directives_on_success (m : Bool) (r : ProcOutcome) (g : Bool)
    (dst : String)
    (h : (runMain m r g (BuildOutcome.ok dst)).result = RunResult.exitOk) :
    Event.emitLine (searchLine dst) ∈ (runMain m r g (BuildOutcome.ok dst)).trace ∧
    Event.emitLine linkLibLine ∈ (runMain m r g (BuildOutcome.ok dst)).trace ∧
    searchLine dst = "cargo:rustc-link-search=native=" ++ (dst ++ "/lib") ∧
    linkLibLine = "cargo:rustc-link-lib=static=" ++ "mypkg" := by
  refine ⟨?_, ?_, string_append_assoc _ _ _, by decide⟩ <;>
    cases m with
    | true => simp [runMain_true, buildPhase]
    | false =>
        cases r with
        | launchFailed => simp [runMain_false_launchFailed] at h
        | exited k => simp [runMain_false_exited, buildPhase]

theorem link_directives_on_success_witness :
    Event.emitLine (searchLine "/tmp/out5") ∈
      (runMain true (ProcOutcome.exited 0) true (BuildOutcome.ok "/tmp/out5")).trace ∧
    Event.emitLine linkLibLine ∈
      (runMain true (ProcOutcome.exited 0) true (BuildOutcome.ok "/tmp/out5")).trace ∧
    searchLine "/tmp/out5" =
      "cargo:rustc-link-search=native=" ++ ("/tmp/out5" ++ "/lib") ∧
    linkLibLine = "cargo:rustc-link-lib=static=" ++ "mypkg" :=
  link_directives_on_success true (ProcOutcome.exited 0) true "/tmp/out5" rfl

/-- C6: whenever the configure/make/make-install step fails, the script
panics (non-zero process exit) and no directive line is ever emitted. -/
theorem build_failure_aborts_without_directives (m : Bool) (r : ProcOutcome)
    (g : Bool) :
    (runMain m r g BuildOutcome.failed).result = RunResult.panicked ∧
    hasEmit (runMain m r g BuildOutcome.failed).trace = false := by
  cases m <;> cases r <;> exact ⟨rfl, rfl⟩

/-- C7: control flow is linear: the first event of every run is the
marker check; any autoreconf invocation is the second event, immediately
after the check; and the trace splits into an emit-free prefix followed by
either nothing or the build invocation and what comes after it, so no
directive is ever emitted before the build step. -/
theorem control_flow_linear (m : Bool) (r : ProcOutcome) (g : Bool)
    (b : BuildOutcome) :
    (runMain m r g b).trace.head? = some (Event.checkMarker markerPath m) ∧
    (∀ p a, Event.spawn p a ∈ (runMain m r g b).trace →
      ∃ rest, (runMain m r g b).trace =
        Event.checkMarker markerPath m :: Event.spawn p a :: rest) ∧
    ∃ t₁ t₂, (runMain m r g b).trace = t₁ ++ t₂ ∧ hasEmit t₁ = false ∧
      (t₂ = [] ∨ ∃ t₃, t₂ = Event.invokeBuild sourceDir :: t₃) := by
  cases m with
  | true =>
      refine ⟨?_, ?_, ?_⟩
      · cases b <;> rfl
      · intro p a hmem
        cases b <;> simp [runMain_true, buildPhase] at hmem
      · cases b with
        | ok d =>
            exact ⟨[Event.checkMarker markerPath true],
                   [Event.invokeBuild sourceDir,
                    Event.emitLine (searchLine d),
                    Event.emitLine linkLibLine], rfl, rfl,
                   Or.inr ⟨_, rfl⟩⟩
        | failed =>
            exact ⟨[Event.checkMarker markerPath true],
                   [Event.invokeBuild sourceDir], rfl, rfl, Or.inr ⟨_, rfl⟩⟩
  | false =>
      cases r with
      | launchFailed =>
          refine ⟨rfl, ?_, ?_⟩
          · intro p a hmem
            simp [runMain_false_launchFailed] at hmem
            obtain ⟨hp, ha⟩ := hmem
            subst hp; subst ha
            exact ⟨[], rfl⟩
          · exact ⟨[Event.checkMarker markerPath false,
                    Event.spawn autoreconfProg autoreconfArgs], [],
                   rfl, rfl, Or.inl rfl⟩
      | exited k =>
          refine ⟨?_, ?_, ?_⟩
          · cases b <;> rfl
          · intro p a hmem
            cases b <;> simp [runMain_false_exited, buildPhase] at hmem <;>
              · obtain ⟨hp, ha⟩ := hmem
                subst hp; subst ha
                exact ⟨_, rfl⟩
          · cases b with
            | ok d =>
                exact ⟨[Event.checkMarker markerPath false,
                        Event.spawn autoreconfProg autoreconfArgs],
                       [Event.invokeBuild sourceDir,
                        Event.emitLine (searchLine d),
                        Event.emitLine linkLibLine], rfl, rfl,
                       Or.inr ⟨_, rfl⟩⟩
            | failed =>
                exact ⟨[Event.checkMarker markerPath false,
                        Event.spawn autoreconfProg autoreconfArgs],
                       [Event.invokeBuild sourceDir], rfl, rfl,
                       Or.inr ⟨_, rfl⟩⟩

theorem control_flow_linear_witness :
    ∃ rest, (runMain false (ProcOutcome.exited 0) true
        (BuildOutcome.ok "/tmp/out7")).trace =
      Event.checkMarker markerPath false ::
      Event.spawn autoreconfProg autoreconfArgs :: rest :=
  (control_flow_linear false (ProcOutcome.exited 0) true
      (BuildOutcome.ok "/tmp/out7")).2.1
    autoreconfProg autoreconfArgs
    (by simp [runMain_false_exited, buildPhase])

/-- The claim of C8 fails on the code: with the marker absent, autoreconf
launched but exiting with code 2, and a build that succeeds with output
directory /tmp/out2, the process exits with code 0 even though the
configuration-generation sub-step, in the sense of the specification, did
not succeed. -/
theorem exit_ok_despite_failed_config_cex :
    (runMain false (ProcOutcome.exited 2) false (BuildOutcome.ok "/tmp/out2")).result
        = RunResult.exitOk ∧
    ¬ specSubStepsSucceed false (ProcOutcome.exited 2) (BuildOutcome.ok "/tmp/out2") := by
  refine ⟨rfl, ?_⟩
  rintro ⟨h, -⟩
  rcases h with h | h <;> simp at h

/-- C8 (amended): the process exits with code 0 exactly when the build
sub-step succeeds and, when configuration generation was needed, the
autoreconf process could at least be launched — its exit code is not
inspected; and whenever the exit code is 0, both directive lines are in
the trace. -/
theorem exit_status_characterization (m : Bool) (r : ProcOutcome) (g : Bool)
    (b : BuildOutcome) :
    ((runMain m r g b).result = RunResult.exitOk ↔
      ((m = true ∨ ∃ k, r = ProcOutcome.exited k) ∧
        ∃ d, b = BuildOutcome.ok d)) ∧
    ((runMain m r g b).result = RunResult.exitOk →
      Event.emitLine linkLibLine ∈ (runMain m r g b).trace ∧
      ∀ d, b = BuildOutcome.ok d →
        Event.emitLine (searchLine d) ∈ (runMain m r g b).trace) := by
  cases m <;> cases r <;> cases b <;>
    simp [runMain_true, runMain_false_exited, runMain_false_launchFailed,
          buildPhase]

theorem exit_status_characterization_witness :
    (runMain true (ProcOutcome.exited 0) true (BuildOutcome.ok "/tmp/out8")).result
      = RunResult.exitOk :=
  (exit_status_characterization true (ProcOutcome.exited 0) true
      (BuildOutcome.ok "/tmp/out8")).1.mpr ⟨Or.inl rfl, "/tmp/out8", rfl⟩

/-- C9: on every run that finishes with exit code 0, the trace ends with
the two directive lines in a fixed order: the link-search line first, the
link-lib line second. -/
theorem directives_emitted_in_fixed_order (m : Bool) (r : ProcOutcome)
    (g : Bool) (dst : String)
    (h : (runMain m r g (BuildOutcome.ok dst)).result = RunResult.exitOk) :
    ∃ pre, (runMain m r g (BuildOutcome.ok dst)).trace =
      pre ++ [Event.emitLine (searchLine dst), Event.emitLine linkLibLine] := by
  cases m with
  | true =>
      exact ⟨[Event.checkMarker markerPath true, Event.invokeBuild sourceDir],
             rfl⟩
  | false =>
      cases r with
      | launchFailed => simp [runMain_false_launchFailed] at h
      | exited k =>
          exact ⟨[Event.checkMarker markerPath false,
                  Event.spawn autoreconfProg autoreconfArgs,
                  Event.invokeBuild sourceDir], rfl⟩

theorem directives_emitted_in_fixed_order_witness :
    ∃ pre, (runMain true (ProcOutcome.exited 0) true
        (BuildOutcome.ok "/tmp/out9")).trace =
      pre ++ [Event.emitLine (searchLine "/tmp/out9"),
              Event.emitLine linkLibLine] :=
  directives_emitted_in_fixed_order true (ProcOutcome.exited 0) true
    "/tmp/out9" rfl

/-- C10: the marker path is the file named configure directly inside the
source directory, the source directory is the fixed string mypkg, and the
same source directory appears in every marker check, every autoreconf
invocation (as the argument after -i), and every build invocation of any
trace. -/
theorem fixed_paths_consistent (m : Bool) (r : ProcOutcome) (g : Bool)
    (b : BuildOutcome) :
    markerPath = sourceDir ++ "/configure" ∧
    sourceDir = "mypkg" ∧
    (∀ pth pres, Event.checkMarker pth pres ∈ (runMain m r g b).trace →
      pth = sourceDir ++ "/configure") ∧
    (∀ p a, Event.spawn p a ∈ (runMain m r g b).trace →
      p = autoreconfProg ∧ a = ["-i", sourceDir]) ∧
    (∀ d, Event.invokeBuild d ∈ (runMain m r g b).trace → d = sourceDir) := by
  refine ⟨by decide, rfl, ?_, ?_, ?_⟩
  · intro pth pres hmem
    cases m <;> cases r <;> cases b <;>
      simp [runMain_true, runMain_false_exited, runMain_false_launchFailed,
            buildPhase] at hmem <;>
      simp [hmem.1, markerPath, sourceDir]
  · intro p a hmem
    cases m <;> cases r <;> cases b <;>
      simp [runMain_true, runMain_false_exited, runMain_false_launchFailed,
            buildPhase] at hmem <;>
      simp [hmem.1, hmem.2, autoreconfArgs]
  · intro d hmem
    cases m <;> cases r <;> cases b <;>
      simp [runMain_true, runMain_false_exited, runMain_false_launchFailed,
            buildPhase] at hmem <;>
      simp [hmem]

theorem fixed_paths_consistent_witness :
    autoreconfProg = autoreconfProg ∧ autoreconfArgs = ["-i", sourceDir] :=
  (fixed_paths_consistent false (ProcOutcome.exited 0) true
      (BuildOutcome.ok "/tmp/out10")).2.2.2.1
    autoreconfProg autoreconfArgs
    (by simp [runMain_false_exited, buildPhase])

end BuildRs
